import Mathlib

/-!
Verification of the SpotifyTranscriber extraction engine.

Shallow embedding of `src/utils/spotify_browser.py` and
`src/utils/transcription_extractor.py`.  Python strings are embedded as
`List Char`; Python `str.strip()` is `wtrim`; DOM pages, BeautifulSoup
documents, HTTP sessions and the Playwright runtime are embedded as
records of oracle functions, so each theorem quantifies over all possible
behaviours of the external world.  Fallible Python operations (network
calls, browser launches, constructors that may raise) are embedded as
`Except Unit`-valued oracles; a `.error` value stands for a raised
exception at that call site.
-/

namespace SpotifyTranscriber

/-- Embedded Python string: a list of characters. -/
abbrev Str := List Char

/-- Whitespace test used by Python `str.strip()` (modelled with
`Char.isWhitespace`, which covers space, tab, CR and LF). -/
def ws (c : Char) : Bool := c.isWhitespace

/-- Python `str.strip()`: drop whitespace from both ends. -/
def wtrim (s : Str) : Str :=
  ((s.dropWhile ws).reverse.dropWhile ws).reverse

/-- The `"\n\n"` separator appended after every transcript fragment
(`spotify_browser.py` lines 394 and 472). -/
def blankSep : Str := ['\n', '\n']

/-- First-match-wins loop over an ordered candidate list: the shape of every
selector-fallback loop in `spotify_browser.py` (lines 321-331, 366-373,
160-166, 425-430). -/
def firstSome (f : α → Option β) : List α → Option β
  | [] => none
  | a :: rest =>
    match f a with
    | some b => some b
    | none => firstSome f rest

/-- Python's `needle in haystack` substring test on strings
(used at `spotify_browser.py` lines 173, 222). -/
def containsSub (needle : Str) : Str → Bool
  | [] => needle.isEmpty
  | c :: rest => needle.isPrefixOf (c :: rest) || containsSub needle rest

/-- Texts joined with exactly one blank line between consecutive fragments,
in order. -/
def joinSep : List Str → Str
  | [] => []
  | [t] => t
  | t :: u :: ts => t ++ blankSep ++ joinSep (u :: ts)

/-- The raw accumulation produced by the extraction loops: every fragment
followed by `blankSep`. -/
def glue : List Str → Str
  | [] => []
  | t :: ts => t ++ blankSep ++ glue ts

/-! ### Generic lemmas about `dropWhile`, `wtrim`, `joinSep`, `glue` -/

theorem dropWhile_head_false (p : Char → Bool) :
    ∀ (l : Str) (c : Char), (l.dropWhile p).head? = some c → p c = false := by
  intro l
  induction l with
  | nil => intro c h; simp at h
  | cons a rest ih =>
    intro c h
    by_cases hpa : p a = true
    · rw [List.dropWhile_cons, if_pos hpa] at h
      exact ih c h
    · rw [List.dropWhile_cons, if_neg hpa] at h
      simp at h
      rw [← h]
      exact Bool.eq_false_iff.mpr hpa

theorem dropWhile_eq_self_of_head (p : Char → Bool) (l : Str)
    (h : ∀ c, l.head? = some c → p c = false) : l.dropWhile p = l := by
  cases l with
  | nil => rfl
  | cons a rest =>
    have ha : p a = false := h a rfl
    rw [List.dropWhile_cons, if_neg (by simp [ha])]

theorem dropWhile_ne_nil_getLast (p : Char → Bool) :
    ∀ l : Str, l.dropWhile p ≠ [] → (l.dropWhile p).getLast? = l.getLast? := by
  intro l
  induction l with
  | nil => intro h; simp at h
  | cons a rest ih =>
    intro h
    by_cases hpa : p a = true
    · rw [List.dropWhile_cons, if_pos hpa] at h ⊢
      rw [ih h]
      have hrest : rest ≠ [] := by
        intro hr; rw [hr] at h; simp at h
      cases rest with
      | nil => exact absurd rfl hrest
      | cons b bs => rw [List.getLast?_cons_cons]
    · rw [List.dropWhile_cons, if_neg hpa]

theorem wtrim_nil : wtrim [] = [] := rfl

theorem wtrim_of_nil (s : Str) (h : s = []) : wtrim s = [] := by
  rw [h]; rfl

theorem wtrim_head_false (u : Str) (c : Char)
    (h : (wtrim u).head? = some c) : ws c = false := by
  unfold wtrim at h
  set v := u.dropWhile ws with hv
  set w := v.reverse.dropWhile ws with hw
  have hw_ne : w ≠ [] := by
    intro hnil
    rw [hnil] at h
    simp at h
  have h1 : w.reverse.head? = w.getLast? := List.head?_reverse w
  rw [h1] at h
  have h2 : w.getLast? = v.reverse.getLast? :=
    dropWhile_ne_nil_getLast ws v.reverse hw_ne
  rw [h2] at h
  have h3 : v.reverse.getLast? = v.head? := List.getLast?_reverse v
  rw [h3] at h
  exact dropWhile_head_false ws u c h

theorem wtrim_getLast_false (u : Str) (c : Char)
    (h : (wtrim u).getLast? = some c) : ws c = false := by
  unfold wtrim at h
  set w := (u.dropWhile ws).reverse.dropWhile ws with hw
  have h1 : w.reverse.getLast? = w.head? := List.getLast?_reverse w
  rw [h1] at h
  exact dropWhile_head_false ws (u.dropWhile ws).reverse c h

theorem head?_append_left (l l' : Str) (h : l ≠ []) :
    (l ++ l').head? = l.head? := by
  cases l with
  | nil => exact absurd rfl h
  | cons a rest => rfl

/-- Trimming fixes any string whose two edges carry no whitespace. -/
theorem wtrim_eq_self (t : Str)
    (hh : ∀ c, t.head? = some c → ws c = false)
    (hl : ∀ c, t.getLast? = some c → ws c = false) : wtrim t = t := by
  unfold wtrim
  rw [dropWhile_eq_self_of_head ws t hh]
  have : t.reverse.dropWhile ws = t.reverse := by
    apply dropWhile_eq_self_of_head
    intro c hc
    rw [List.head?_reverse] at hc
    exact hl c hc
  rw [this, List.reverse_reverse]

/-- `str.strip()` is idempotent. -/
theorem wtrim_idem (u : Str) : wtrim (wtrim u) = wtrim u := by
  by_cases h : wtrim u = []
  · rw [h]; rfl
  · exact wtrim_eq_self (wtrim u) (wtrim_head_false u) (wtrim_getLast_false u)

/-- Dropping a trailing `"\n\n"` with `strip()` recovers a string whose
edges carry no whitespace. -/
theorem wtrim_append_blankSep (t : Str)
    (hh : ∀ c, t.head? = some c → ws c = false)
    (hl : ∀ c, t.getLast? = some c → ws c = false)
    (hne : t ≠ []) : wtrim (t ++ blankSep) = t := by
  unfold wtrim
  have h1 : (t ++ blankSep).dropWhile ws = t ++ blankSep := by
    apply dropWhile_eq_self_of_head
    intro c hc
    rw [head?_append_left t blankSep hne] at hc
    exact hh c hc
  rw [h1]
  have h2 : (t ++ blankSep).reverse = '\n' :: '\n' :: t.reverse := by
    rw [List.reverse_append]; rfl
  rw [h2]
  have hnl : ws '\n' = true := by decide
  rw [List.dropWhile_cons, if_pos hnl, List.dropWhile_cons, if_pos hnl]
  have h3 : t.reverse.dropWhile ws = t.reverse := by
    apply dropWhile_eq_self_of_head
    intro c hc
    rw [List.head?_reverse] at hc
    exact hl c hc
  rw [h3, List.reverse_reverse]

theorem joinSep_head? (t : Str) (ts : List Str) (h : t ≠ []) :
    (joinSep (t :: ts)).head? = t.head? := by
  cases ts with
  | nil => rfl
  | cons u rest =>
    cases t with
    | nil => exact absurd rfl h
    | cons a as => rfl

theorem joinSep_ne_nil (t : Str) (ts : List Str) (h : t ≠ []) :
    joinSep (t :: ts) ≠ [] := by
  intro hnil
  have h1 := joinSep_head? t ts h
  rw [hnil] at h1
  cases t with
  | nil => exact absurd rfl h
  | cons a as => simp at h1

theorem joinSep_getLast? :
    ∀ (ts : List Str), (∀ x ∈ ts, x ≠ ([] : Str)) →
      ∀ t, ts.getLast? = some t → (joinSep ts).getLast? = t.getLast? := by
  intro ts
  induction ts with
  | nil => intro _ t h; simp at h
  | cons x rest ih =>
    intro hmem t h
    cases rest with
    | nil =>
      simp at h
      rw [← h]; rfl
    | cons u us =>
      rw [List.getLast?_cons_cons] at h
      have hu : u ≠ [] := hmem u (by simp)
      have hrest : ∀ y ∈ u :: us, y ≠ ([] : Str) := by
        intro y hy; exact hmem y (List.mem_cons_of_mem x hy)
      have hJ : joinSep (u :: us) ≠ [] := joinSep_ne_nil u us hu
      show (x ++ blankSep ++ joinSep (u :: us)).getLast? = t.getLast?
      have e1 : ((x ++ blankSep) ++ joinSep (u :: us)).getLast? = (joinSep (u :: us)).getLast? :=
        List.getLast?_append_of_ne_nil (x ++ blankSep) hJ
      rw [e1]
      exact ih hrest t h

theorem glue_eq_joinSep :
    ∀ ts : List Str, ts ≠ [] → glue ts = joinSep ts ++ blankSep := by
  intro ts
  induction ts with
  | nil => intro h; exact absurd rfl h
  | cons t rest ih =>
    intro _
    cases rest with
    | nil =>
      show t ++ blankSep ++ [] = t ++ blankSep
      rw [List.append_nil]
    | cons u us =>
      show t ++ blankSep ++ glue (u :: us) = t ++ blankSep ++ joinSep (u :: us) ++ blankSep
      rw [ih (by simp), ← List.append_assoc]

theorem glue_ne_nil (ts : List Str) (h : ts ≠ []) : glue ts ≠ [] := by
  rw [glue_eq_joinSep ts h]
  simp [blankSep]

/-- Edge conditions of each fragment, as produced by `strip()`. -/
def edgeOk (t : Str) : Prop :=
  t ≠ [] ∧ (∀ c, t.head? = some c → ws c = false) ∧
    (∀ c, t.getLast? = some c → ws c = false)

theorem joinSep_edgeOk (ts : List Str) (hne : ts ≠ [])
    (hmem : ∀ t ∈ ts, edgeOk t) : edgeOk (joinSep ts) := by
  cases ts with
  | nil => exact absurd rfl hne
  | cons t rest =>
    have ht : edgeOk t := hmem t (by simp)
    refine ⟨joinSep_ne_nil t rest ht.1, ?_, ?_⟩
    · intro c hc
      rw [joinSep_head? t rest ht.1] at hc
      exact ht.2.1 c hc
    · intro c hc
      obtain ⟨tl, htl⟩ : ∃ tl, (t :: rest).getLast? = some tl := by
        cases e : (t :: rest).getLast? with
        | none => rw [List.getLast?_eq_none_iff] at e; simp at e
        | some tl => exact ⟨tl, rfl⟩
      have htlmem : tl ∈ t :: rest := by
        obtain ⟨hne2, heq⟩ := List.mem_getLast?_eq_getLast (Option.mem_def.mpr htl)
        rw [heq]
        exact List.getLast_mem hne2
      have htle : edgeOk tl := hmem tl htlmem
      rw [joinSep_getLast? (t :: rest) (fun x hx => (hmem x hx).1) tl htl] at hc
      exact htle.2.2 c hc

/-- Stripping the raw accumulated buffer yields the blank-line join:
the central text-assembly fact behind the `assemble` invariants. -/
theorem wtrim_glue_eq_joinSep (ts : List Str) (hne : ts ≠ [])
    (hmem : ∀ t ∈ ts, edgeOk t) :
    wtrim (glue ts) = joinSep ts ∧ wtrim (joinSep ts) = joinSep ts := by
  have hJ : edgeOk (joinSep ts) := joinSep_edgeOk ts hne hmem
  constructor
  · rw [glue_eq_joinSep ts hne]
    exact wtrim_append_blankSep (joinSep ts) hJ.2.1 hJ.2.2 hJ.1
  · exact wtrim_eq_self (joinSep ts) hJ.2.1 hJ.2.2

/-! ### Selector candidate lists (hard-coded in `spotify_browser.py`) -/

/-- `transcription_selectors` (lines 313-318). -/
def transcription_button_selectors : List Str :=
  ["button[aria-label=\"Show transcript\"]".data,
   "button:has-text(\"Show transcript\")".data,
   "[data-testid=\"transcript-button\"]".data,
   "button:has-text(\"Transcript\")".data]

/-- `transcript_selectors` (lines 358-363), also used by the requests-mode
extractor (lines 425-426, 450-451). -/
def transcript_container_selectors : List Str :=
  ["[data-testid=\"transcript-container\"]".data,
   ".transcript-container".data,
   "[aria-label=\"Transcript\"]".data,
   ".episode-transcript".data]

/-- Item-selector cascade candidates (lines 380-387 and 460-466). -/
def transcript_item_selector : Str := "[data-testid=\"transcript-item\"]".data

def div_p_selector : Str := "div > p".data

def div_selector : Str := "div".data

/-- `success_selectors` in `_login_with_browser` (lines 153-157). -/
def login_success_selectors : List Str :=
  ["a[href=\"/collection\"]".data,
   "[data-testid=\"spotify-logo\"]".data,
   "[data-testid=\"home-active-icon\"]".data]

/-! ### Browser-mode DOM model

A `BItem` is a transcript item element (only its `inner_text` is read).
A `BContainer` is a transcript container element: `inner_text` plus a
scoped `query_selector_all`.  A `BPage` is the Playwright page:
`wait_for_selector` (plain, used by the container search; `none` models
both a timeout exception and a falsy return), `wait_for_selector_visible`
(the `state='visible'` variant used by the button and login loops), and
the page-global `query_selector_all`. -/

structure BItem where
  inner_text : Str

structure BContainer where
  inner_text : Str
  query_selector_all : Str → List BItem

structure BPage where
  wait_for_selector : Str → Option BContainer
  wait_for_selector_visible : Str → Bool
  query_selector_all : Str → List BItem

/-- The first-match selector loop of `_find_transcription_button_with_browser`
(lines 321-331): the selector whose wait succeeded and which was clicked. -/
def find_button_selector (p : BPage) : Option Str :=
  firstSome (fun sel => if p.wait_for_selector_visible sel then some sel else none)
    transcription_button_selectors

/-- `_find_transcription_button_with_browser` (lines 305-337). -/
def find_transcription_button_with_browser (p : BPage) : Bool :=
  (find_button_selector p).isSome

/-- The container-search loop of `_extract_transcription_text_with_browser`
(lines 365-373). -/
def find_transcript_container (p : BPage) : Option BContainer :=
  firstSome p.wait_for_selector transcript_container_selectors

/-- The item-selector cascade (lines 379-387).  NOTE, faithful to the source:
the first candidate is queried on the PAGE (`self.page.query_selector_all`),
only the other two on the found container. -/
def cascade_items (p : BPage) (c : BContainer) : List BItem :=
  let i0 := p.query_selector_all transcript_item_selector
  if !i0.isEmpty then i0
  else
    let i1 := c.query_selector_all div_p_selector
    if !i1.isEmpty then i1
    else c.query_selector_all div_selector

/-- One step of the text-accumulation loop (lines 391-394):
`if text and len(text.strip()) > 0: transcript_text += text.strip() + "\n\n"`. -/
def bstep (acc : Str) (it : BItem) : Str :=
  if !it.inner_text.isEmpty && !(wtrim it.inner_text).isEmpty then
    acc ++ wtrim it.inner_text ++ blankSep
  else acc

/-- The text-accumulation loop over the items (lines 390-394). -/
def assemble_browser (items : List BItem) : Str := items.foldl bstep []

/-- `_extract_transcription_text_with_browser` (lines 350-404). -/
def extract_transcription_text_with_browser (p : BPage) : Option Str :=
  match find_transcript_container p with
  | none => none
  | some c =>
    let t := assemble_browser (cascade_items p c)
    let t2 := if t.isEmpty then c.inner_text else t
    if t2.isEmpty then none else some (wtrim t2)

/-! ### Requests-mode (BeautifulSoup) model

`HItem.text` is `get_text(strip=True)` of an item node; `HContainer` adds
the scoped `select`.  A `Soup` is a parsed document: `select_one` for the
container selectors, the `a[href*="transcript"]` link results (each link's
`get('href')` may be `None`), and, for each
`script[type="application/ld+json"]` tag, the transcript string it
yields (`some s` when `json.loads` succeeds on a dict with a string
`'transcript'` entry, `none` otherwise). -/

structure HItem where
  text : Str

structure HContainer where
  text : Str
  select : Str → List HItem

structure LinkNode where
  href : Option Str

structure Soup where
  select_one : Str → Option HContainer
  transcript_links : List LinkNode
  ld_json_transcripts : List (Option Str)

/-- The environment of the requests-mode extractor: the HTML parser and
`self.session.get` (status code and body text; `.error` = raised). -/
structure ReqEnv where
  parse : Str → Soup
  get : Str → Except Unit (Nat × Str)

/-- The container-selector loop on a parsed soup (lines 425-430, 450-455). -/
def find_container_in (s : Soup) : Option HContainer :=
  firstSome s.select_one transcript_container_selectors

/-- The `application/ld+json` fallback loop (lines 481-489). -/
def json_transcript (s : Soup) : Option Str :=
  firstSome id s.ld_json_transcripts

/-- One step of the requests-mode accumulation loop (lines 469-472):
`if text: transcript_text += text + "\n\n"`. -/
def hstep (acc : Str) (it : HItem) : Str :=
  if !it.text.isEmpty then acc ++ it.text ++ blankSep else acc

/-- The requests-mode item cascade (lines 460-466); here all three
candidates are scoped to the container. -/
def h_cascade_items (c : HContainer) : List HItem :=
  let i0 := c.select transcript_item_selector
  if !i0.isEmpty then i0
  else
    let i1 := c.select div_p_selector
    if !i1.isEmpty then i1
    else c.select div_selector

/-- Extraction from a found container (lines 458-478). -/
def extract_from_container (c : HContainer) : Option Str :=
  let t := (h_cascade_items c).foldl hstep []
  let t2 := if t.isEmpty then c.text else t
  if t2.isEmpty then none else some (wtrim t2)

/-- `_extract_transcription_text_with_requests` (lines 406-496), taking the
retained `self.episode_html` (`none` = attribute absent).  A link node with
no `href` makes `transcript_url.startswith` raise; the outer handler then
returns `None`. -/
def extract_transcription_text_with_requests (env : ReqEnv)
    (episode_html : Option Str) : Option Str :=
  match episode_html with
  | none => none
  | some h =>
    if h.isEmpty then none
    else
      let soup := env.parse h
      match find_container_in soup with
      | some c => extract_from_container c
      | none =>
        match soup.transcript_links with
        | [] => json_transcript soup
        | l :: _ =>
          match l.href with
          | none => none
          | some href =>
            let url := if "http".data.isPrefixOf href then href
                       else "https://open.spotify.com".data ++ href
            match env.get url with
            | .error _ => none
            | .ok (st, body) =>
              if st = 200 then
                let soup2 := env.parse body
                match find_container_in soup2 with
                | some c => extract_from_container c
                | none => json_transcript soup2
              else json_transcript soup

/-! ### Login -/

/-- A cookie in `self.session.cookies`; only its `name` is inspected. -/
structure Cookie where
  name : Str

/-- The network behaviour seen by `_login_with_requests`: the GET of the
login page (status code; `.error` = raised) and the POST of the credentials
(final `response.url` after redirects and the session cookie jar afterwards;
`.error` = raised). -/
structure LoginReqEnv where
  get_login : Except Unit Nat
  post_login : Except Unit (Str × List Cookie)

/-- `_login_with_requests` (lines 184-231).  Success condition (line 222):
`'open.spotify.com' in response.url or any('spotify' in cookie.name and
'sp_dc' in cookie.name for cookie in self.session.cookies)`. -/
def login_with_requests (env : LoginReqEnv) : Bool :=
  match env.get_login with
  | .error _ => false
  | .ok st =>
    if st ≠ 200 then false
    else
      match env.post_login with
      | .error _ => false
      | .ok (url, cookies) =>
        containsSub "open.spotify.com".data url ||
          cookies.any (fun ck =>
            containsSub "spotify".data ck.name && containsSub "sp_dc".data ck.name)

/-- The page behaviour seen by `_login_with_browser`: `goto_ok` is the
navigation to the login page; `form_ok` covers the form wait, the two fills
and the click (lines 129-136; any raise there lands in the outer handler);
`error_banner` is the `.alert.alert-warning` wait (lines 142-143; `none` =
timed out); `success_visible` is the visible-wait per success selector;
`current_url` is `self.page.url`. -/
structure BLoginEnv where
  goto_ok : Bool
  form_ok : Bool
  error_banner : Option Str
  success_visible : Str → Bool
  current_url : Str

/-- The success-indicator loop of `_login_with_browser` (lines 160-166). -/
def find_success_selector (e : BLoginEnv) : Option Str :=
  firstSome (fun sel => if e.success_visible sel then some sel else none)
    login_success_selectors

/-- `_login_with_browser` (lines 114-182). -/
def login_with_browser (e : BLoginEnv) : Bool :=
  if !e.goto_ok then false
  else if !e.form_ok then false
  else
    match e.error_banner with
    | some _ => false
    | none =>
      match find_success_selector e with
      | some _ => true
      | none =>
        containsSub "open.spotify.com".data e.current_url ||
          containsSub "accounts.spotify.com/en/status".data e.current_url

/-! ### Handle construction, `is_active`, `close` -/

/-- The three Playwright engines tried in `_initialize_browser`, in source
order (lines 58-85). -/
inductive Engine where
  | chromium
  | firefox
  | webkit
deriving DecidableEq

/-- `self.browser_mode` (set at lines 37, 40, 44). -/
inductive Mode where
  | playwright
  | requests
deriving DecidableEq

/-- The fields of a `SpotifyBrowser` instance.  `page`, `context`,
`playwright` are `is not None` flags; `browser` records which engine's
browser object is held (`none` = `None`); `session` is the live
`requests.Session`; `episode_html` is the attribute set by
`_navigate_to_episode_with_requests` (`none` = never set). -/
structure Handle where
  mode : Mode
  page : Bool
  context : Bool
  browser : Option Engine
  playwright : Bool
  session : Bool
  episode_html : Option Str
deriving DecidableEq

def empty_handle : Handle :=
  { mode := Mode.requests, page := false, context := false, browser := none,
    playwright := false, session := false, episode_html := none }

/-- The runtime environment of `__init__`: whether the Playwright import
succeeded, whether `sync_playwright().start()` succeeds, whether each
engine's launch (including `new_context` and `new_page`) succeeds, and
whether `requests.Session()` succeeds. -/
structure InitEnv where
  playwright_available : Bool
  start_ok : Bool
  launch_ok : Engine → Bool
  session_ok : Bool

/-- Whether each resource's close call (`context.close()`, `browser.close()`,
`playwright.stop()`) succeeds or raises, for `close` (lines 498-515). -/
structure CloseEnv where
  context_close_ok : Bool
  browser_close_ok : Bool
  playwright_stop_ok : Bool

/-- `close` (lines 498-515): each held resource is closed in order inside one
`try`; the field resets at lines 508-511 happen only if no close raised, the
exception being swallowed either way. -/
def close (env : CloseEnv) (h : Handle) : Handle :=
  if h.context && !env.context_close_ok then h
  else if h.browser.isSome && !env.browser_close_ok then h
  else if h.playwright && !env.playwright_stop_ok then h
  else { h with page := false, context := false, browser := none, playwright := false }

/-- `is_active` (lines 95-97): `self.page is not None and self.browser is
not None`. -/
def is_active (h : Handle) : Bool := h.page && h.browser.isSome

/-- The engine-launch chain of `_initialize_browser` (lines 58-85):
Chromium, then Firefox, then WebKit; first success wins. -/
def try_engines (env : InitEnv) : Option Engine :=
  if env.launch_ok Engine.chromium then some Engine.chromium
  else if env.launch_ok Engine.firefox then some Engine.firefox
  else if env.launch_ok Engine.webkit then some Engine.webkit
  else none

/-- The fields of `self` after the `try`/`except` around
`_initialize_browser` in `__init__` (lines 34-44).  When `start()` raises,
no field was set; when all launches fail, `_initialize_browser` runs
`self.close()` (clearing `playwright` unless `stop()` raises) and re-raises,
and `__init__` falls back to requests mode. -/
def init_browser_phase (env : InitEnv) (cenv : CloseEnv) : Handle :=
  if env.playwright_available then
    if env.start_ok then
      match try_engines env with
      | some e =>
        { empty_handle with
            mode := Mode.playwright, page := true, context := true,
            browser := some e, playwright := true }
      | none => close cenv { empty_handle with playwright := true }
    else empty_handle
  else empty_handle

/-- `SpotifyBrowser.__init__` (lines 20-47).  `self.session =
requests.Session()` (line 47) runs unconditionally after the guarded
browser initialization; if it raises, the error propagates to the caller. -/
def spotify_browser_init (env : InitEnv) (cenv : CloseEnv) : Except Unit Handle :=
  let h := init_browser_phase env cenv
  if env.session_ok then .ok { h with session := true } else .error ()

/-! ### Navigator (requests mode) and orchestrator -/

/-- The network seen by `_navigate_to_episode_with_requests`:
`self.session.get` returning status and body, or raising. -/
structure NavEnv where
  get : Str → Except Unit (Nat × Str)

/-- `_navigate_to_episode_with_requests` (lines 269-290): on HTTP 200 the
body is retained in `episode_html`; otherwise the handle is untouched. -/
def navigate_to_episode_with_requests (env : NavEnv) (h : Handle) (url : Str) :
    Bool × Handle :=
  match env.get url with
  | .error _ => (false, h)
  | .ok (st, body) =>
    if st = 200 then (true, { h with episode_html := some body }) else (false, h)

/-- The duck-typed browser object passed to `extract_transcription`:
its three method results. -/
structure BrowserOps where
  navigate : Str → Bool
  find_button : Bool
  extract_text : Option Str

/-- `extract_transcription` (`transcription_extractor.py` lines 4-43).
`if not transcription: return None` treats both `None` and `""` as absent. -/
def extract_transcription (b : BrowserOps) (url : Str) : Option Str :=
  if b.navigate url then
    if b.find_button then
      match b.extract_text with
      | none => none
      | some t => if t.isEmpty then none else some t
    else none
  else none

/-! ### Spec-side comparator for C6 -/

/-- Scheme-stripping for `urlHost`. -/
def afterScheme : Str → Str
  | [] => []
  | ':' :: '/' :: '/' :: rest => rest
  | _ :: rest => afterScheme rest

/-- Host part of a URL: what follows `://` up to the first `/`. -/
def urlHost (u : Str) : Str := (afterScheme u).takeWhile (fun c => c ≠ '/')

/-- Comparator following the specification words for C6: the response's
final URL "is on the platform's primary domain", i.e. its host is
`open.spotify.com`.  Deliberately NOT derived from the source, which uses a
substring test instead. -/
def spec_onPrimaryDomain (u : Str) : Bool := urlHost u = "open.spotify.com".data

theorem firstSome_first_match {α β : Type} (f : α → Option β)
    (pre : List α) (s : α) (post : List α) (b : β)
    (hpre : ∀ x ∈ pre, f x = none) (hs : f s = some b) :
    firstSome f (pre ++ s :: post) = some b := by
  induction pre with
  | nil => simp [firstSome, hs]
  | cons a rest ih =>
    have ha : f a = none := hpre a (by simp)
    show firstSome f (a :: (rest ++ s :: post)) = some b
    rw [firstSome, ha]
    exact ih (fun x hx => hpre x (List.mem_cons_of_mem a hx))

/-! ### Bridging the accumulation loop to `glue`/`joinSep` -/

/-- The stripped, non-empty item texts, in document order: exactly the
fragments the loop at lines 391-394 appends. -/
def trimmed_texts (items : List BItem) : List Str :=
  (items.map (fun it => wtrim it.inner_text)).filter (fun t => !t.isEmpty)

theorem bstep_acc (acc : Str) (it : BItem) : bstep acc it = acc ++ bstep [] it := by
  unfold bstep
  split
  · rw [List.nil_append, List.append_assoc]
  · rw [List.append_nil]

theorem foldl_bstep_acc :
    ∀ (items : List BItem) (acc : Str),
      items.foldl bstep acc = acc ++ items.foldl bstep [] := by
  intro items
  induction items with
  | nil => intro acc; simp
  | cons i is ih =>
    intro acc
    show is.foldl bstep (bstep acc i) = acc ++ is.foldl bstep (bstep [] i)
    rw [ih (bstep acc i), ih (bstep [] i), bstep_acc acc i, List.append_assoc]

theorem wtrim_isEmpty_of_isEmpty (s : Str) (h : s.isEmpty = true) :
    (wtrim s).isEmpty = true := by
  rw [List.isEmpty_iff] at h
  rw [h]
  rfl

theorem assemble_browser_eq_glue (items : List BItem) :
    assemble_browser items = glue (trimmed_texts items) := by
  induction items with
  | nil => rfl
  | cons i is ih =>
    show is.foldl bstep (bstep [] i) = glue (trimmed_texts (i :: is))
    rw [foldl_bstep_acc is (bstep [] i)]
    by_cases hc : (wtrim i.inner_text).isEmpty = true
    · have h1 : bstep [] i = [] := by
        unfold bstep
        rw [hc]
        simp
      have h2 : trimmed_texts (i :: is) = trimmed_texts is := by
        unfold trimmed_texts
        simp [List.filter_cons, hc]
      rw [h1, h2]
      exact ih
    · have hne : i.inner_text.isEmpty = false := by
        cases e : i.inner_text.isEmpty
        · rfl
        · exact absurd (wtrim_isEmpty_of_isEmpty i.inner_text e) hc
      have hc2 : (wtrim i.inner_text).isEmpty = false := Bool.eq_false_iff.mpr hc
      have h1 : bstep [] i = wtrim i.inner_text ++ blankSep := by
        unfold bstep
        rw [hne, hc2]
        simp
      have h2 : trimmed_texts (i :: is) = wtrim i.inner_text :: trimmed_texts is := by
        unfold trimmed_texts
        simp [List.filter_cons, hc]
      rw [h1, h2]
      have ihu : is.foldl bstep [] = glue (trimmed_texts is) := ih
      rw [ihu]
      rfl

theorem trimmed_texts_edgeOk (items : List BItem) :
    ∀ t ∈ trimmed_texts items, edgeOk t := by
  intro t ht
  unfold trimmed_texts at ht
  rw [List.mem_filter] at ht
  obtain ⟨hmem, hpred⟩ := ht
  rw [List.mem_map] at hmem
  obtain ⟨it, _, heq⟩ := hmem
  subst heq
  refine ⟨?_, wtrim_head_false it.inner_text, wtrim_getLast_false it.inner_text⟩
  simpa using hpred

/-! ### Claim C5: the orchestrator short-circuits -/

/-- C5: `extract_transcription` short-circuits.  If `navigate_to_episode`
returns false, the result is `none` and is independent of the
`find_transcription_button` and `extract_transcription_text` behaviours
(they are never invoked); if navigation succeeds but
`find_transcription_button` returns false, the result is `none` and is
independent of `extract_transcription_text`. -/
theorem c5_orchestrator_short_circuits (b : BrowserOps) (url : Str) :
    (b.navigate url = false →
      extract_transcription b url = none ∧
        ∀ (fb : Bool) (et : Option Str),
          extract_transcription { b with find_button := fb, extract_text := et } url = none)
    ∧ (b.navigate url = true → b.find_button = false →
      extract_transcription b url = none ∧
        ∀ et : Option Str,
          extract_transcription { b with extract_text := et } url = none) := by
  constructor
  · intro hnav
    constructor
    · simp [extract_transcription, hnav]
    · intro fb et
      simp [extract_transcription, hnav]
  · intro hnav hbtn
    constructor
    · simp [extract_transcription, hnav, hbtn]
    · intro et
      simp [extract_transcription, hnav, hbtn]

def c5_ops : BrowserOps :=
  { navigate := fun _ => false, find_button := true, extract_text := some "x".data }

/-- Witness for C5 at a concrete browser object whose navigation fails. -/
theorem c5_witness : extract_transcription c5_ops [] = none :=
  ((c5_orchestrator_short_circuits c5_ops []).1 rfl).1

/-! ### Claim C10: failed requests-mode navigation leaves the retained body -/

/-- C10: in requests mode, a `navigate_to_episode` call that returns false
leaves the whole handle (in particular `episode_html`) unchanged, and when
no navigation has ever succeeded (`episode_html` absent) the requests-mode
extractor reports absent. -/
theorem c10_navigation_failure_frame (env : NavEnv) (h : Handle) (url : Str) :
    ((navigate_to_episode_with_requests env h url).1 = false →
      (navigate_to_episode_with_requests env h url).2 = h)
    ∧ (h.episode_html = none →
        ∀ renv : ReqEnv,
          extract_transcription_text_with_requests renv h.episode_html = none) := by
  constructor
  · intro hf
    unfold navigate_to_episode_with_requests at hf ⊢
    cases hg : env.get url with
    | error e => rfl
    | ok pr =>
      obtain ⟨st, body⟩ := pr
      rw [hg] at hf
      dsimp only at hf ⊢
      by_cases h200 : st = 200
      · rw [if_pos h200] at hf
        simp at hf
      · rw [if_neg h200]
  · intro he renv
    rw [he]
    rfl

def c10_env : NavEnv := { get := fun _ => .ok (404, "not found".data) }

def c10_renv : ReqEnv :=
  { parse := fun _ => { select_one := fun _ => none, transcript_links := [],
                        ld_json_transcripts := [] },
    get := fun _ => .error () }

/-- Witness for C10: a 404 response leaves the fresh handle unchanged, and
extraction on the never-navigated handle is absent. -/
theorem c10_witness :
    (navigate_to_episode_with_requests c10_env empty_handle []).2 = empty_handle
    ∧ extract_transcription_text_with_requests c10_renv empty_handle.episode_html = none :=
  ⟨(c10_navigation_failure_frame c10_env empty_handle []).1 rfl,
   (c10_navigation_failure_frame c10_env empty_handle []).2 rfl c10_renv⟩

/-! ### Claim C8: `close` idempotence and `is_active` afterwards -/

def c8_cenv : CloseEnv :=
  { context_close_ok := true, browser_close_ok := false, playwright_stop_ok := true }

def c8_handle : Handle :=
  { mode := Mode.playwright, page := true, context := false,
    browser := some Engine.chromium, playwright := false, session := true,
    episode_html := none }

/-- C8 counterexample: on a handle holding a browser whose `close()` raises,
the exception is swallowed (lines 514-515) but the field resets at lines
508-511 are skipped, so after `close` returns `is_active()` is still true —
refuting "after close returns, is_active() on that handle returns false"
for every handle. -/
theorem c8_counterexample :
    close c8_cenv c8_handle = c8_handle
    ∧ is_active (close c8_cenv c8_handle) = true := ⟨rfl, rfl⟩

/-- C8 amended: `close` never raises and calling it twice changes nothing
beyond the first call; whenever none of the underlying resource closes
raises, all browser fields are cleared and `is_active` is false afterwards;
in general `close` either leaves the handle exactly as it was (some
underlying close raised) or clears the browser fields. -/
theorem c8_amended_close_idempotent (cenv : CloseEnv) (h : Handle) :
    close cenv (close cenv h) = close cenv h
    ∧ (cenv.context_close_ok = true → cenv.browser_close_ok = true →
        cenv.playwright_stop_ok = true → is_active (close cenv h) = false)
    ∧ (close cenv h = h ∨
        ((close cenv h).page = false ∧ (close cenv h).browser = none)) := by
  by_cases g1 : (h.context && !cenv.context_close_ok) = true
  · refine ⟨?_, ?_, Or.inl ?_⟩
    · simp [close, g1]
    · intro h1 h2 h3
      rw [h1] at g1
      simp at g1
    · simp [close, g1]
  · by_cases g2 : (h.browser.isSome && !cenv.browser_close_ok) = true
    · refine ⟨?_, ?_, Or.inl ?_⟩
      · simp [close, g1, g2]
      · intro h1 h2 h3
        rw [h2] at g2
        simp at g2
      · simp [close, g1, g2]
    · by_cases g3 : (h.playwright && !cenv.playwright_stop_ok) = true
      · refine ⟨?_, ?_, Or.inl ?_⟩
        · simp [close, g1, g2, g3]
        · intro h1 h2 h3
          rw [h3] at g3
          simp at g3
        · simp [close, g1, g2, g3]
      · refine ⟨?_, ?_, Or.inr ?_⟩
        · simp [close, g1, g2, g3, is_active]
        · intro h1 h2 h3
          simp [close, g1, g2, g3, is_active]
        · simp [close, g1, g2, g3]

def c8w_cenv : CloseEnv :=
  { context_close_ok := true, browser_close_ok := true, playwright_stop_ok := true }

/-- Witness for C8 at a fully-live handle whose resource closes all succeed. -/
theorem c8_witness :
    is_active (close c8w_cenv
      { mode := Mode.playwright, page := true, context := true,
        browser := some Engine.webkit, playwright := true, session := true,
        episode_html := none }) = false :=
  (c8_amended_close_idempotent c8w_cenv _).2.1 rfl rfl rfl

/-! ### Claim C1: blank-line assembly of item texts -/

/-- A restatement of `extract_transcription_text_with_browser` once the
container scrutinee is known, for rewriting. -/
theorem extract_browser_of_container (p : BPage) (c : BContainer)
    (e : find_transcript_container p = some c) :
    extract_transcription_text_with_browser p =
      (if (if (assemble_browser (cascade_items p c)).isEmpty then c.inner_text
           else assemble_browser (cascade_items p c)).isEmpty then none
       else some (wtrim (if (assemble_browser (cascade_items p c)).isEmpty then c.inner_text
           else assemble_browser (cascade_items p c)))) := by
  unfold extract_transcription_text_with_browser
  rw [e]

/-- C1: in browser mode, when the transcript-container selector list first
matches on the 3rd candidate and the item cascade yields items whose
stripped non-empty texts are `trimmed_texts (cascade_items p c)` (a
non-empty list), the assembler returns exactly those texts joined by one
blank line, in document order, with no leading or trailing whitespace;
empty-after-strip fragments are dropped (they are filtered out of
`trimmed_texts`). -/
theorem c1_assemble_joins_with_blank_lines (p : BPage) (c : BContainer)
    (h1 : p.wait_for_selector "[data-testid=\"transcript-container\"]".data = none)
    (h2 : p.wait_for_selector ".transcript-container".data = none)
    (h3 : p.wait_for_selector "[aria-label=\"Transcript\"]".data = some c)
    (hts : trimmed_texts (cascade_items p c) ≠ []) :
    extract_transcription_text_with_browser p
      = some (joinSep (trimmed_texts (cascade_items p c)))
    ∧ wtrim (joinSep (trimmed_texts (cascade_items p c)))
      = joinSep (trimmed_texts (cascade_items p c)) := by
  have hc : find_transcript_container p = some c := by
    unfold find_transcript_container transcript_container_selectors
    rw [firstSome, h1, firstSome, h2, firstSome, h3]
  have hglue := wtrim_glue_eq_joinSep (trimmed_texts (cascade_items p c)) hts
    (trimmed_texts_edgeOk (cascade_items p c))
  have ha : assemble_browser (cascade_items p c) = glue (trimmed_texts (cascade_items p c)) :=
    assemble_browser_eq_glue (cascade_items p c)
  have hgn : glue (trimmed_texts (cascade_items p c)) ≠ [] :=
    glue_ne_nil (trimmed_texts (cascade_items p c)) hts
  have hgne : (glue (trimmed_texts (cascade_items p c))).isEmpty = false := by
    cases e : (glue (trimmed_texts (cascade_items p c))).isEmpty
    · rfl
    · exact absurd (List.isEmpty_iff.mp e) hgn
  constructor
  · rw [extract_browser_of_container p c hc, ha, hgne]
    simp only [Bool.false_eq_true, if_false, hgne]
    rw [hglue.1]
  · exact hglue.2

def c1_container : BContainer :=
  { inner_text := [],
    query_selector_all := fun sel =>
      if sel = div_p_selector then [⟨"Hello".data⟩, ⟨"World".data⟩] else [] }

def c1_page : BPage :=
  { wait_for_selector := fun sel =>
      if sel = "[aria-label=\"Transcript\"]".data then some c1_container else none,
    wait_for_selector_visible := fun _ => false,
    query_selector_all := fun _ => [] }

/-- Witness for C1: the end-to-end scenario — container selector list
matches on the 3rd candidate, the matched container yields the two item
texts "Hello" and "World", and the assembler returns "Hello\n\nWorld". -/
theorem c1_witness :
    extract_transcription_text_with_browser c1_page = some "Hello\n\nWorld".data := by
  have h := c1_assemble_joins_with_blank_lines c1_page c1_container rfl rfl rfl (by decide)
  rw [h.1]
  rfl

/-! ### Claim C2: candidate lists are tried in declared order, first match wins -/

/-- C2: each of the four selector candidate lists is evaluated strictly in
declared order with the first matching candidate taken and the remaining
candidates skipped: whenever the list decomposes as `pre ++ s :: post` with
every candidate of `pre` failing and `s` matching, the result is produced
from `s`, whatever the candidates of `post` would do.  Covers the
transcription-button loop, the transcript-container loop, the login
success-indicator loop, and the item-selector cascade. -/
theorem c2_selector_lists_first_match_wins :
    (∀ (p : BPage) (pre : List Str) (s : Str) (post : List Str),
      transcription_button_selectors = pre ++ s :: post →
      (∀ x ∈ pre, p.wait_for_selector_visible x = false) →
      p.wait_for_selector_visible s = true →
      find_button_selector p = some s)
    ∧ (∀ (p : BPage) (pre : List Str) (s : Str) (post : List Str) (c : BContainer),
      transcript_container_selectors = pre ++ s :: post →
      (∀ x ∈ pre, p.wait_for_selector x = none) →
      p.wait_for_selector s = some c →
      find_transcript_container p = some c)
    ∧ (∀ (e : BLoginEnv) (pre : List Str) (s : Str) (post : List Str),
      login_success_selectors = pre ++ s :: post →
      (∀ x ∈ pre, e.success_visible x = false) →
      e.success_visible s = true →
      find_success_selector e = some s)
    ∧ (∀ (p : BPage) (c : BContainer),
      ((p.query_selector_all transcript_item_selector).isEmpty = false →
        cascade_items p c = p.query_selector_all transcript_item_selector)
      ∧ ((p.query_selector_all transcript_item_selector).isEmpty = true →
          (c.query_selector_all div_p_selector).isEmpty = false →
          cascade_items p c = c.query_selector_all div_p_selector)
      ∧ ((p.query_selector_all transcript_item_selector).isEmpty = true →
          (c.query_selector_all div_p_selector).isEmpty = true →
          cascade_items p c = c.query_selector_all div_selector)) := by
  refine ⟨?_, ?_, ?_, ?_⟩
  · intro p pre s post hlist hpre hs
    unfold find_button_selector
    rw [hlist]
    exact firstSome_first_match _ pre s post s
      (fun x hx => by rw [if_neg]; rw [hpre x hx]; simp)
      (by rw [if_pos hs])
  · intro p pre s post c hlist hpre hs
    unfold find_transcript_container
    rw [hlist]
    exact firstSome_first_match _ pre s post c hpre hs
  · intro e pre s post hlist hpre hs
    unfold find_success_selector
    rw [hlist]
    exact firstSome_first_match _ pre s post s
      (fun x hx => by rw [if_neg]; rw [hpre x hx]; simp)
      (by rw [if_pos hs])
  · intro p c
    refine ⟨?_, ?_, ?_⟩
    · intro h0
      simp [cascade_items, h0]
    · intro h0 h1
      simp [cascade_items, h0, h1]
    · intro h0 h1
      simp [cascade_items, h0, h1]

def c2_container : BContainer :=
  { inner_text := [],
    query_selector_all := fun sel => if sel = div_p_selector then [⟨"x".data⟩] else [] }

def c2_page : BPage :=
  { wait_for_selector := fun sel =>
      if sel = ".transcript-container".data then some c2_container else none,
    wait_for_selector_visible := fun sel =>
      sel = "button:has-text(\"Show transcript\")".data,
    query_selector_all := fun _ => [] }

def c2_login : BLoginEnv :=
  { goto_ok := true, form_ok := true, error_banner := none,
    success_visible := fun sel => sel = "[data-testid=\"home-active-icon\"]".data,
    current_url := [] }

/-- Witness for C2: fake documents in which only the 2nd button selector,
the 2nd container selector, the 3rd login success selector, and the 2nd
item candidate match, each yielding the matching candidate's result. -/
theorem c2_witness :
    find_button_selector c2_page = some "button:has-text(\"Show transcript\")".data
    ∧ find_transcript_container c2_page = some c2_container
    ∧ find_success_selector c2_login = some "[data-testid=\"home-active-icon\"]".data
    ∧ cascade_items c2_page c2_container = [⟨"x".data⟩] := by
  refine ⟨?_, ?_, ?_, ?_⟩
  · exact c2_selector_lists_first_match_wins.1 c2_page
      ["button[aria-label=\"Show transcript\"]".data]
      "button:has-text(\"Show transcript\")".data
      ["[data-testid=\"transcript-button\"]".data, "button:has-text(\"Transcript\")".data]
      rfl (by decide) (by decide)
  · exact c2_selector_lists_first_match_wins.2.1 c2_page
      ["[data-testid=\"transcript-container\"]".data]
      ".transcript-container".data
      ["[aria-label=\"Transcript\"]".data, ".episode-transcript".data]
      c2_container rfl (fun x hx => by fin_cases hx; rfl) rfl
  · exact c2_selector_lists_first_match_wins.2.2.1 c2_login
      ["a[href=\"/collection\"]".data, "[data-testid=\"spotify-logo\"]".data]
      "[data-testid=\"home-active-icon\"]".data
      [] rfl (by decide) (by decide)
  · exact (c2_selector_lists_first_match_wins.2.2.2 c2_page c2_container).2.1 rfl rfl

/-! ### Claim C4: item-cascade scoping -/

def c4_container : BContainer :=
  { inner_text := "fallback".data,
    query_selector_all := fun sel =>
      if sel = div_p_selector then [⟨"Hello".data⟩, ⟨"World".data⟩] else [] }

def c4_wait (sel : Str) : Option BContainer :=
  if sel = "[data-testid=\"transcript-container\"]".data then some c4_container else none

def c4_page_outside : BPage :=
  { wait_for_selector := c4_wait,
    wait_for_selector_visible := fun _ => false,
    query_selector_all := fun sel =>
      if sel = transcript_item_selector then [⟨"OUTSIDE".data⟩] else [] }

def c4_page_clean : BPage :=
  { wait_for_selector := c4_wait,
    wait_for_selector_visible := fun _ => false,
    query_selector_all := fun _ => [] }

/-- C4 counterexample: the first item-selector candidate is queried via
`self.page.query_selector_all` (line 380), i.e. against the whole page, not
the found container.  Two pages with the identical container search (same
`wait_for_selector`, hence the same found container with items "Hello" and
"World") produce different transcripts depending only on page-global
`[data-testid="transcript-item"]` nodes — so nodes outside the container do
contribute text, refuting the claim. -/
theorem c4_counterexample :
    extract_transcription_text_with_browser c4_page_outside = some "OUTSIDE".data
    ∧ extract_transcription_text_with_browser c4_page_clean = some "Hello\n\nWorld".data
    ∧ c4_page_outside.wait_for_selector = c4_page_clean.wait_for_selector
    ∧ "OUTSIDE".data ≠ "Hello\n\nWorld".data :=
  ⟨rfl, rfl, rfl, by decide⟩

/-- C4 amended: once a container is found, the cascade stops at the first
candidate yielding one or more items, but the first candidate (the semantic
item marker) is queried against the whole page; only the second and third
candidates (generic paragraph-like, then generic block nodes) are queried
within the found container. -/
theorem c4_amended_cascade_scoping (p : BPage) (c : BContainer)
    (_hfound : find_transcript_container p = some c) :
    ((p.query_selector_all transcript_item_selector).isEmpty = false →
      cascade_items p c = p.query_selector_all transcript_item_selector)
    ∧ ((p.query_selector_all transcript_item_selector).isEmpty = true →
        (c.query_selector_all div_p_selector).isEmpty = false →
        cascade_items p c = c.query_selector_all div_p_selector)
    ∧ ((p.query_selector_all transcript_item_selector).isEmpty = true →
        (c.query_selector_all div_p_selector).isEmpty = true →
        cascade_items p c = c.query_selector_all div_selector) := by
  refine ⟨?_, ?_, ?_⟩
  · intro h0
    simp [cascade_items, h0]
  · intro h0 h1
    simp [cascade_items, h0, h1]
  · intro h0 h1
    simp [cascade_items, h0, h1]

/-- Witness for C4: on the page with an item node outside the container,
the cascade is exactly the page-global query result. -/
theorem c4_witness :
    cascade_items c4_page_outside c4_container = [⟨"OUTSIDE".data⟩] :=
  (c4_amended_cascade_scoping c4_page_outside c4_container rfl).1 rfl

/-! ### Claim C3: no empty-string results -/

def c3_container : BContainer :=
  { inner_text := "   ".data, query_selector_all := fun _ => [] }

def c3_page : BPage :=
  { wait_for_selector := fun sel =>
      if sel = "[data-testid=\"transcript-container\"]".data then some c3_container else none,
    wait_for_selector_visible := fun _ => false,
    query_selector_all := fun _ => [] }

/-- C3 counterexample: on a page whose transcript container is found but
holds only whitespace (no items anywhere), the item loop yields nothing, the
whole-container fallback (line 398) picks up the non-empty whitespace text,
and line 400 returns `transcript_text.strip()`, i.e. the empty string `""` —
not `None` — refuting "never returns an empty string" and "whenever any
extracted text trims to empty the result is absent". -/
theorem c3_counterexample :
    extract_transcription_text_with_browser c3_page = some []
    ∧ extract_transcription_text_with_browser c3_page ≠ none := by
  constructor
  · rfl
  · intro hcon
    have h1 : extract_transcription_text_with_browser c3_page = some [] := rfl
    rw [h1] at hcon
    exact Option.noConfusion hcon

/-- A non-absent result of the shared `if text: return text.strip() else
None` tail is always a stripped string. -/
theorem wtrim_of_guarded_some (x t : Str)
    (h : (if x.isEmpty then none else some (wtrim x)) = some t) : wtrim t = t := by
  by_cases he : x.isEmpty = true
  · rw [if_pos he] at h
    exact Option.noConfusion h
  · rw [if_neg he] at h
    rw [← Option.some.inj h]
    exact wtrim_idem x

/-- C3 amended: with no container found the browser extractor returns
absent, and every non-absent result (in both modes' container paths) is
trimmed; however the result can be the empty string, and exactly when the
item loop produced nothing and the container's own text is non-empty
whitespace (the fallback at lines 396-400).  In requests mode the result is
absent when there is no retained body, and when container search, links and
the embedded-JSON search all fail. -/
theorem c3_amended_absent_and_trimmed :
    (∀ p : BPage, find_transcript_container p = none →
      extract_transcription_text_with_browser p = none)
    ∧ (∀ (p : BPage) (t : Str),
        extract_transcription_text_with_browser p = some t → wtrim t = t)
    ∧ (∀ p : BPage, extract_transcription_text_with_browser p = some [] →
        ∃ c, find_transcript_container p = some c ∧
          assemble_browser (cascade_items p c) = [] ∧
          c.inner_text ≠ [] ∧ wtrim c.inner_text = [])
    ∧ (∀ (c : HContainer) (t : Str), extract_from_container c = some t → wtrim t = t)
    ∧ (∀ renv : ReqEnv, extract_transcription_text_with_requests renv none = none)
    ∧ (∀ (renv : ReqEnv) (html : Str), html.isEmpty = false →
        find_container_in (renv.parse html) = none →
        (renv.parse html).transcript_links = [] →
        json_transcript (renv.parse html) = none →
        extract_transcription_text_with_requests renv (some html) = none) := by
  refine ⟨?_, ?_, ?_, ?_, ?_, ?_⟩
  · intro p hnone
    unfold extract_transcription_text_with_browser
    rw [hnone]
  · intro p t h
    cases e : find_transcript_container p with
    | none =>
      unfold extract_transcription_text_with_browser at h
      rw [e] at h
      exact Option.noConfusion h
    | some c =>
      rw [extract_browser_of_container p c e] at h
      exact wtrim_of_guarded_some _ t h
  · intro p h
    cases e : find_transcript_container p with
    | none =>
      unfold extract_transcription_text_with_browser at h
      rw [e] at h
      exact Option.noConfusion h
    | some c =>
      rw [extract_browser_of_container p c e] at h
      refine ⟨c, rfl, ?_⟩
      by_cases ha : (assemble_browser (cascade_items p c)).isEmpty = true
      · rw [if_pos ha] at h
        by_cases hi : c.inner_text.isEmpty = true
        · rw [if_pos hi] at h
          exact Option.noConfusion h
        · rw [if_neg hi] at h
          have hw : wtrim c.inner_text = [] := Option.some.inj h
          refine ⟨List.isEmpty_iff.mp ha, ?_, hw⟩
          intro hn
          rw [hn] at hi
          exact hi rfl
      · rw [if_neg ha, if_neg ha] at h
        have hw : wtrim (assemble_browser (cascade_items p c)) = [] := Option.some.inj h
        exfalso
        have hg := assemble_browser_eq_glue (cascade_items p c)
        by_cases hts : trimmed_texts (cascade_items p c) = []
        · rw [hts] at hg
          exact ha (by rw [hg]; rfl)
        · have hglue := wtrim_glue_eq_joinSep (trimmed_texts (cascade_items p c)) hts
            (trimmed_texts_edgeOk (cascade_items p c))
          rw [hg, hglue.1] at hw
          cases hts0 : trimmed_texts (cascade_items p c) with
          | nil => exact hts hts0
          | cons t0 rest =>
            have ht0 : edgeOk t0 :=
              trimmed_texts_edgeOk (cascade_items p c) t0 (by rw [hts0]; simp)
            rw [hts0] at hw
            exact joinSep_ne_nil t0 rest ht0.1 hw
  · intro c t h
    unfold extract_from_container at h
    dsimp only at h
    exact wtrim_of_guarded_some _ t h
  · intro renv
    rfl
  · intro renv html hne hcont hlinks hjson
    unfold extract_transcription_text_with_requests
    dsimp only
    rw [hne]
    simp only [Bool.false_eq_true, if_false]
    rw [hcont, hlinks]
    exact hjson

def c3w_page : BPage :=
  { wait_for_selector := fun _ => none,
    wait_for_selector_visible := fun _ => false,
    query_selector_all := fun _ => [] }

def c3w_renv : ReqEnv :=
  { parse := fun _ => { select_one := fun _ => none, transcript_links := [],
                        ld_json_transcripts := [] },
    get := fun _ => .error () }

/-- Witness for C3 (amended): a page without any container gives absent in
browser mode, and a retained body with no container, links or JSON gives
absent in requests mode. -/
theorem c3_witness :
    extract_transcription_text_with_browser c3w_page = none
    ∧ extract_transcription_text_with_requests c3w_renv (some "<html></html>".data) = none :=
  ⟨c3_amended_absent_and_trimmed.1 c3w_page rfl,
   c3_amended_absent_and_trimmed.2.2.2.2.2 c3w_renv "<html></html>".data rfl rfl rfl rfl⟩

/-! ### Claim C6: requests-mode login success condition -/

def c6_env : LoginReqEnv :=
  { get_login := .ok 200,
    post_login := .ok ("https://evil.com/open.spotify.com".data, []) }

/-- C6 counterexample: the code tests `'open.spotify.com' in response.url`
(line 222), a plain substring check, not a domain check.  A response whose
final URL is `https://evil.com/open.spotify.com` is off-domain (its host is
`evil.com`) and carries no cookie at all, yet login returns true — refuting
"for every response whose final URL is off-domain with no matching cookie
present, login returns false". -/
theorem c6_counterexample :
    login_with_requests c6_env = true
    ∧ spec_onPrimaryDomain "https://evil.com/open.spotify.com".data = false
    ∧ urlHost "https://evil.com/open.spotify.com".data = "evil.com".data := by
  refine ⟨?_, by decide, by decide⟩
  rfl

/-- C6 amended: requests-mode login returns true exactly when the login-page
GET returned 200, the credentials POST did not raise, and either the final
URL contains the substring `open.spotify.com` or some session cookie's name
contains both `spotify` and `sp_dc` as substrings; with no substring match
and no such cookie it returns false. -/
theorem c6_amended_login_requests_iff (env : LoginReqEnv) :
    login_with_requests env = true ↔
      ∃ (url : Str) (cookies : List Cookie),
        env.get_login = .ok 200 ∧ env.post_login = .ok (url, cookies) ∧
          (containsSub "open.spotify.com".data url = true ∨
            ∃ ck ∈ cookies, containsSub "spotify".data ck.name = true ∧
              containsSub "sp_dc".data ck.name = true) := by
  unfold login_with_requests
  cases hg : env.get_login with
  | error e => simp [hg]
  | ok st =>
    dsimp only
    by_cases h200 : st = 200
    · subst h200
      rw [if_neg (by simp)]
      cases hp : env.post_login with
      | error e => simp [hp]
      | ok pr =>
        obtain ⟨url, cookies⟩ := pr
        simp only [hp, List.any_eq_true, Bool.or_eq_true, Bool.and_eq_true, Except.ok.injEq,
          Prod.mk.injEq, true_and]
        refine ⟨fun h => ⟨url, cookies, ⟨rfl, rfl⟩, h⟩, fun h => ?_⟩
        obtain ⟨u, cs, ⟨h1, h2⟩, h3⟩ := h
        subst h1
        subst h2
        exact h3
    · rw [if_pos (by simpa using h200)]
      simp only [Bool.false_eq_true, false_iff]
      intro hfalse
      obtain ⟨url, cookies, hge, _, _⟩ := hfalse
      injection hge with hst
      exact h200 hst


def c6w_env : LoginReqEnv :=
  { get_login := .ok 200,
    post_login := .ok ("https://open.spotify.com/episode/abc".data, []) }

/-- Witness for C6 (amended): an on-domain final URL logs in successfully. -/
theorem c6_witness : login_with_requests c6w_env = true :=
  (c6_amended_login_requests_iff c6w_env).mpr
    ⟨"https://open.spotify.com/episode/abc".data, [], rfl, rfl, Or.inl (by decide)⟩

/-! ### Claims C7 and C9: handle construction and `is_active` -/

/-- Exhaustive description of the fields of `self` after the guarded browser
initialization of `__init__`, before the session assignment. -/
theorem init_phase_spec (env : InitEnv) (cenv : CloseEnv) :
    ((init_browser_phase env cenv).mode = Mode.playwright ↔
      env.playwright_available = true ∧ env.start_ok = true ∧
        (env.launch_ok Engine.chromium || env.launch_ok Engine.firefox ||
          env.launch_ok Engine.webkit) = true)
    ∧ ((init_browser_phase env cenv).mode = Mode.requests →
        (init_browser_phase env cenv).browser = none ∧
        (init_browser_phase env cenv).page = false)
    ∧ ((init_browser_phase env cenv).mode = Mode.playwright →
        (init_browser_phase env cenv).page = true ∧
        (init_browser_phase env cenv).browser = some
          (if env.launch_ok Engine.chromium then Engine.chromium
           else if env.launch_ok Engine.firefox then Engine.firefox
           else Engine.webkit)) := by
  cases ha : env.playwright_available <;>
    cases hst : env.start_ok <;>
      cases hc : env.launch_ok Engine.chromium <;>
        cases hf : env.launch_ok Engine.firefox <;>
          cases hw : env.launch_ok Engine.webkit <;>
            cases hstop : cenv.playwright_stop_ok <;>
              simp [init_browser_phase, try_engines, close, empty_handle,
                ha, hst, hc, hf, hw, hstop]

def c7_env : InitEnv :=
  { playwright_available := true, start_ok := true, launch_ok := fun _ => true,
    session_ok := false }

def c7_cenv : CloseEnv :=
  { context_close_ok := true, browser_close_ok := true, playwright_stop_ok := true }

/-- C7 counterexample: `self.session = requests.Session()` (line 47) runs
outside the `try` that guards browser initialization, so its failure raises
out of `__init__` even when a browser engine (here Chromium) launched
successfully — refuting "only the total failure of all paths — no engine
launched and the HTTP fallback itself erroring — surfaces as a raised
construction error". -/
theorem c7_counterexample :
    spotify_browser_init c7_env c7_cenv = .error ()
    ∧ c7_env.launch_ok Engine.chromium = true := ⟨rfl, rfl⟩

/-- C7 amended: engines are attempted in the fixed order Chromium, Firefox,
WebKit with the first successful launch taken; engine-launch failures are
non-fatal and fall back to the next engine and finally to requests mode
(browser mode holds exactly when Playwright is importable, its runtime
starts, and some engine launches); but a raised construction error occurs
exactly when the `requests.Session()` construction fails, regardless of
whether an engine launched. -/
theorem c7_amended_engine_fallback (env : InitEnv) (cenv : CloseEnv) :
    (spotify_browser_init env cenv = .error () ↔ env.session_ok = false)
    ∧ (∀ h : Handle, spotify_browser_init env cenv = .ok h →
        ((h.mode = Mode.playwright ↔
           env.playwright_available = true ∧ env.start_ok = true ∧
             (env.launch_ok Engine.chromium || env.launch_ok Engine.firefox ||
               env.launch_ok Engine.webkit) = true)
        ∧ (h.mode = Mode.requests → h.browser = none)
        ∧ (env.playwright_available = true → env.start_ok = true →
            env.launch_ok Engine.chromium = true → h.browser = some Engine.chromium)
        ∧ (env.playwright_available = true → env.start_ok = true →
            env.launch_ok Engine.chromium = false → env.launch_ok Engine.firefox = true →
            h.browser = some Engine.firefox)
        ∧ (env.playwright_available = true → env.start_ok = true →
            env.launch_ok Engine.chromium = false → env.launch_ok Engine.firefox = false →
            env.launch_ok Engine.webkit = true → h.browser = some Engine.webkit))) := by
  have hspec := init_phase_spec env cenv
  constructor
  · unfold spotify_browser_init
    dsimp only
    cases hs : env.session_ok <;> simp
  · intro h hok
    unfold spotify_browser_init at hok
    dsimp only at hok
    cases hs : env.session_ok
    · rw [hs] at hok
      simp at hok
    · rw [hs, if_pos rfl] at hok
      injection hok with hh
      subst hh
      refine ⟨?_, ?_, ?_, ?_, ?_⟩
      · exact hspec.1
      · intro hm
        exact (hspec.2.1 hm).1
      · intro h1 h2 h3
        have hm : (init_browser_phase env cenv).mode = Mode.playwright :=
          hspec.1.mpr ⟨h1, h2, by rw [h3]; rfl⟩
        have hb := (hspec.2.2 hm).2
        show (init_browser_phase env cenv).browser = some Engine.chromium
        rw [hb, if_pos h3]
      · intro h1 h2 h3 h4
        have hm : (init_browser_phase env cenv).mode = Mode.playwright :=
          hspec.1.mpr ⟨h1, h2, by rw [h3, h4]; rfl⟩
        have hb := (hspec.2.2 hm).2
        show (init_browser_phase env cenv).browser = some Engine.firefox
        rw [hb, if_neg (by simp [h3]), if_pos h4]
      · intro h1 h2 h3 h4 h5
        have hm : (init_browser_phase env cenv).mode = Mode.playwright :=
          hspec.1.mpr ⟨h1, h2, by rw [h3, h4, h5]; rfl⟩
        have hb := (hspec.2.2 hm).2
        show (init_browser_phase env cenv).browser = some Engine.webkit
        rw [hb, if_neg (by simp [h3]), if_neg (by simp [h4])]

def c7w_env : InitEnv :=
  { playwright_available := true, start_ok := true,
    launch_ok := fun e => match e with | Engine.firefox => true | _ => false,
    session_ok := true }

def c7w_cenv : CloseEnv :=
  { context_close_ok := true, browser_close_ok := true, playwright_stop_ok := true }

def c7w_handle : Handle :=
  { mode := Mode.playwright, page := true, context := true,
    browser := some Engine.firefox, playwright := true, session := true,
    episode_html := none }

/-- Witness for C7 (amended): Chromium fails, Firefox launches, construction
succeeds with a Firefox-backed browser-mode handle. -/
theorem c7_witness :
    spotify_browser_init c7w_env c7w_cenv = .ok c7w_handle
    ∧ c7w_handle.browser = some Engine.firefox := by
  refine ⟨rfl, ?_⟩
  exact ((c7_amended_engine_fallback c7w_env c7w_cenv).2 c7w_handle rfl).2.2.2.1
    rfl rfl rfl rfl

def c9_env : InitEnv :=
  { playwright_available := false, start_ok := true, launch_ok := fun _ => true,
    session_ok := true }

def c9_cenv : CloseEnv :=
  { context_close_ok := true, browser_close_ok := true, playwright_stop_ok := true }

def c9_handle : Handle := { empty_handle with session := true }

/-- C9 counterexample: `is_active` (lines 95-97) checks only `self.page` and
`self.browser`.  A handle constructed in requests mode holds a live
`requests.Session` yet `is_active()` returns false — refuting "for a handle
in HTTP mode whose HTTP session is live, is_active() returns true". -/
theorem c9_counterexample :
    spotify_browser_init c9_env c9_cenv = .ok c9_handle
    ∧ c9_handle.mode = Mode.requests
    ∧ c9_handle.session = true
    ∧ is_active c9_handle = false := ⟨rfl, rfl, rfl, rfl⟩

/-- C9 amended: `is_active` reports only live browser resources: every
constructed requests-mode handle (session live included) has `is_active`
false, and every constructed browser-mode handle has `is_active` true. -/
theorem c9_amended_is_active (env : InitEnv) (cenv : CloseEnv) (h : Handle)
    (hok : spotify_browser_init env cenv = .ok h) :
    (h.mode = Mode.requests → is_active h = false)
    ∧ (h.mode = Mode.playwright → is_active h = true)
    ∧ h.session = true := by
  have hspec := init_phase_spec env cenv
  unfold spotify_browser_init at hok
  dsimp only at hok
  cases hs : env.session_ok
  · rw [hs] at hok
    simp at hok
  · rw [hs, if_pos rfl] at hok
    injection hok with hh
    subst hh
    refine ⟨?_, ?_, rfl⟩
    · intro hm
      have hb := hspec.2.1 hm
      simp [is_active, hb.1, hb.2]
    · intro hm
      have hb := hspec.2.2 hm
      simp [is_active, hb.1, hb.2]

def c9w_env : InitEnv :=
  { playwright_available := true, start_ok := true, launch_ok := fun _ => true,
    session_ok := true }

def c9w_cenv : CloseEnv :=
  { context_close_ok := true, browser_close_ok := true, playwright_stop_ok := true }

def c9w_handle : Handle :=
  { mode := Mode.playwright, page := true, context := true,
    browser := some Engine.chromium, playwright := true, session := true,
    episode_html := none }

/-- Witness for C9 (amended): a constructed browser-mode handle is active. -/
theorem c9_witness : is_active c9w_handle = true :=
  (c9_amended_is_active c9w_env c9w_cenv c9w_handle rfl).2.1 rfl

end SpotifyTranscriber
